import Mathlib

/-!
Shallow embedding of the tabular comparison engine of `src/core/comparator.py`
(class `CSVComparator`), together with theorems settling the frozen claims
about it.

Modelling conventions:
* A pandas cell value is modelled by `Value`: `na` stands for a missing value
  (`NaN`/`None`), `int` for an `int64` cell, `float` for a `float64` cell
  (floating-point numbers are modelled as rationals), `str` for a Python
  string held in an `object` column.
* A dataframe is a list of `(column name, dtype)` pairs plus a list of rows;
  a row is an association list from column names to values (the loader
  guarantees every row has a value for every column, so lookups that miss are
  given the pandas default `na`).
* Python exceptions are modelled with `Except String`; a `.error` value
  corresponds to an uncaught exception escaping the comparison call.
* `Series.mean`/`Series.std` on an `object` column raise unless every
  non-null entry is numeric; on numeric columns they skip nulls and return
  `NaN` (modelled `none`) when too few values remain.  The square root inside
  the standard deviation is kept abstract as a `sqrtFn : ℚ → ℚ` parameter.
* `df.describe()` output and the echoed metadata dict are not modelled: no
  claim mentions them and they do not influence any modelled field.
* Python's `str.strip()` is modelled as trimming the six ASCII whitespace
  characters; `str.lower()` is modelled with `Char.toLower` (basic latin).
-/

namespace FidcDataCheck

/-- A scalar cell value of a dataframe. -/
inductive Value
  | na
  | int (i : ℤ)
  | float (q : ℚ)
  | str (s : String)
  deriving DecidableEq, Repr

/-- The pandas dtype of one column: `int64`, `float64` or `object`. -/
inductive Dtype
  | int64
  | float64
  | obj
  deriving DecidableEq, Repr

/-- One row: an association list from column names to cell values. -/
abbrev Row := List (String × Value)

/-- A dataframe: named, typed columns and a list of rows. -/
structure DataFrame where
  cols : List (String × Dtype)
  rows : List Row
  deriving DecidableEq, Repr

/-- Column names of a dataframe, in order. -/
def colNames (df : DataFrame) : List String :=
  df.cols.map (fun p => p.1)

/-- The declared dtype of a column, if the column exists. -/
def dtypeOf (cols : List (String × Dtype)) (c : String) : Option Dtype :=
  (cols.find? (fun p => p.1 = c)).map (fun p => p.2)

/-- Look a column up in a row. -/
def getVal (r : Row) (c : String) : Option Value :=
  (r.find? (fun p => p.1 = c)).map (fun p => p.2)

/-- Row lookup with the pandas default for a missing cell (`NaN`). -/
def getValD (r : Row) (c : String) : Value :=
  (getVal r c).getD Value.na

/-- Is this value missing (`pd.isna`)? -/
def Value.isNa : Value → Bool
  | .na => true
  | _ => false

/-- Numeric reading of a value, when it has one. -/
def toRat? : Value → Option ℚ
  | .int i => some (i : ℚ)
  | .float q => some q
  | _ => none

/-! ### Text normalization (`str.strip` / `str.lower`) -/

/-- The six ASCII whitespace characters stripped by Python's `str.strip()`. -/
def pyWs (c : Char) : Bool :=
  c.toNat = 32 || c.toNat = 9 || c.toNat = 10 || c.toNat = 13 ||
    c.toNat = 11 || c.toNat = 12

/-- Strip leading and trailing whitespace from a character list. -/
def trimChars (l : List Char) : List Char :=
  List.rdropWhile pyWs (List.dropWhile pyWs l)

/-- Model of Python `str.strip()`. -/
def trimStr (s : String) : String :=
  String.mk (trimChars s.data)

/-- Model of Python `str.lower()` (basic latin case folding). -/
def lowerStr (s : String) : String :=
  String.mk (s.data.map Char.toLower)

/-- The `.str.strip()` accessor applied to one cell of an `object` column:
strings are stripped, missing values stay missing, and any non-string object
is mapped to `NaN` (pandas `.str` semantics). -/
def stripVal : Value → Value
  | .str s => .str (trimStr s)
  | .na => .na
  | _ => .na

/-- The `.str.lower()` accessor applied to one cell of an `object` column. -/
def lowerVal : Value → Value
  | .str s => .str (lowerStr s)
  | .na => .na
  | _ => .na

/-! ### Configuration (`CSVComparator.__init__`) -/

/-- The comparison configuration held by a `CSVComparator` instance. -/
structure Config where
  float_tolerance : ℚ
  ignore_case : Bool
  ignore_whitespace : Bool
  ignore_columns : List String
  key_columns : List String
  deriving DecidableEq, Repr

/-- The raw configuration dict handed to `CSVComparator.__init__`: each
recognized option is either present or absent. -/
structure RawConfig where
  float_tolerance : Option ℚ
  ignore_case : Option Bool
  ignore_whitespace : Option Bool
  ignore_columns : Option (List String)
  key_columns : Option (List String)
  deriving DecidableEq, Repr

/-- `CSVComparator.__init__`: read each option with its default
(`config.get(name, default)`).  The float literal `1e-10` is modelled by the
rational `1 / 10 ^ 10`. -/
def mkConfig (raw : RawConfig) : Config :=
  { float_tolerance := raw.float_tolerance.getD (1 / 10 ^ 10)
    ignore_case := raw.ignore_case.getD false
    ignore_whitespace := raw.ignore_whitespace.getD true
    ignore_columns := raw.ignore_columns.getD []
    key_columns := raw.key_columns.getD [] }

/-- The raw configuration with every option omitted (`CSVComparator()`). -/
def emptyRawConfig : RawConfig :=
  { float_tolerance := none
    ignore_case := none
    ignore_whitespace := none
    ignore_columns := none
    key_columns := none }

/-! ### Preprocessing (`_preprocess_dataframe`) -/

/-- Drop the configured ignore-columns (`df.drop(columns=...)`); columns not
present are silently skipped. -/
def dropColumns (ignore : List String) (df : DataFrame) : DataFrame :=
  { cols := df.cols.filter (fun p => !ignore.contains p.1)
    rows := df.rows.map (fun r => r.filter (fun p => !ignore.contains p.1)) }

/-- Apply a `.str` accessor to every cell of every `object`-typed column. -/
def mapObjCols (f : Value → Value) (df : DataFrame) : DataFrame :=
  { cols := df.cols
    rows := df.rows.map (fun r => r.map (fun p =>
      if dtypeOf df.cols p.1 = some Dtype.obj then (p.1, f p.2) else p)) }

/-- `if self.ignore_columns: df = df.drop(columns=...)` — the drop is only
performed when the configured set is non-empty (it is a no-op otherwise). -/
def dropStep (ignore : List String) (df : DataFrame) : DataFrame :=
  if ignore.isEmpty then df else dropColumns ignore df

/-- `if self.ignore_whitespace: ...str.strip()...`. -/
def wsStep (iw : Bool) (df : DataFrame) : DataFrame :=
  if iw then mapObjCols stripVal df else df

/-- `if self.ignore_case: ...str.lower()...`. -/
def caseStep (ic : Bool) (df : DataFrame) : DataFrame :=
  if ic then mapObjCols lowerVal df else df

/-- `CSVComparator._preprocess_dataframe`: drop ignored columns, then strip
whitespace on text columns when `ignore_whitespace`, then lower-case text
columns when `ignore_case`. -/
def preprocessDataframe (cfg : Config) (df : DataFrame) : DataFrame :=
  caseStep cfg.ignore_case (wsStep cfg.ignore_whitespace (dropStep cfg.ignore_columns df))

/-! ### Value-level comparison semantics -/

/-- Merge-key normalization: in a pandas join (and in `drop_duplicates`) a
missing key matches a missing key, and an integer key matches the equal
float key; everything else matches by plain equality. -/
def normVal : Value → Value
  | .int i => .float (i : ℚ)
  | v => v

/-- Equality of two cells as join keys (`pd.merge` semantics). -/
def mergeEq (v w : Value) : Bool :=
  normVal v = normVal w

/-- Python `==` on two cells of an `object` column: `NaN` compares unequal
to everything (including itself); numbers compare by value. -/
def pyEq : Value → Value → Bool
  | .na, _ => false
  | _, .na => false
  | .int i, .int j => i = j
  | .int i, .float q => (i : ℚ) = q
  | .float q, .int j => q = (j : ℚ)
  | .float a, .float b => a = b
  | .str a, .str b => a = b
  | .int _, .str _ => false
  | .float _, .str _ => false
  | .str _, .int _ => false
  | .str _, .float _ => false

/-- Is this dtype one of pandas' `int64`/`float64` (the dtypes accepted by
the numeric branch of `_compare_by_key`)? -/
def isNumDtype : Option Dtype → Bool
  | some .int64 => true
  | some .float64 => true
  | _ => false

/-- The numeric branch of the field difference mask:
`abs(s1 - s2) > tol` on two numeric series.  A `NaN` on either side makes
the comparison `False` (IEEE semantics), hence no difference. -/
def numDiffMask (tol : ℚ) (v w : Value) : Bool :=
  match toRat? v, toRat? w with
  | some a, some b => |a - b| > tol
  | _, _ => false

/-- The fallback branch of the field difference mask:
`~((s1.isna() & s2.isna()) | (s1 == s2))`. -/
def objDiffMask (v w : Value) : Bool :=
  !((v.isNa && w.isNa) || pyEq v w)

/-- The per-field difference mask of `_compare_by_key`: the numeric branch
when both columns have a numeric dtype, the fallback branch otherwise. -/
def fieldDiffMask (tol : ℚ) (d1 d2 : Option Dtype) (v w : Value) : Bool :=
  if isNumDtype d1 && isNumDtype d2 then numDiffMask tol v w else objDiffMask v w

/-- Python `str()` of one cell, as used to build the joined key string. -/
def valueStr : Value → String
  | .na => "nan"
  | .int i => toString i
  | .float q => toString q
  | .str s => s

/-- Python binary `-` on two cell values: defined on numbers, a `TypeError`
on anything involving a string. -/
def valueSub : Value → Value → Except String Value
  | .int i, .int j => .ok (.int (i - j))
  | .int i, .float q => .ok (.float ((i : ℚ) - q))
  | .float q, .int j => .ok (.float (q - (j : ℚ)))
  | .float a, .float b => .ok (.float (a - b))
  | _, _ => .error "TypeError: unsupported operand type(s) for -"

/-- The `difference` slot of one difference entry: a number or `"N/A"`. -/
inductive Delta
  | val (v : Value)
  | notAvailable
  deriving DecidableEq, Repr

/-- `row[col_internal] - row[col_fund] if pd.notna(...) and pd.notna(...)
else 'N/A'`: the subtraction is attempted whenever both sides are non-null,
and raises on non-numeric operands. -/
def computeDelta (v w : Value) : Except String Delta :=
  if !v.isNa && !w.isNa then (valueSub v w).map Delta.val else .ok Delta.notAvailable

/-- One recorded field difference of a matched pair. -/
structure DiffEntry where
  internal : Value
  fund : Value
  difference : Delta
  deriving DecidableEq, Repr

/-! ### The keyed inner join (`pd.merge(..., on=valid_keys, how='inner')`) -/

/-- Do two rows agree on every key column (join-key equality)? -/
def keyMatch (keys : List String) (r1 r2 : Row) : Bool :=
  keys.all (fun k => mergeEq (getValD r1 k) (getValD r2 k))

/-- All matched pairs of the inner equality join: every left row paired with
every right row sharing its key tuple. -/
def mergedPairs (keys : List String) (rows1 rows2 : List Row) : List (Row × Row) :=
  rows1.flatMap (fun r1 => (rows2.filter (fun r2 => keyMatch keys r1 r2)).map (fun r2 => (r1, r2)))

/-- The joined key string of a matched pair:
`"_".join(str(row[k]) for k in valid_keys)` (key values are taken from the
left frame). -/
def keyStr (keys : List String) (r : Row) : String :=
  String.intercalate "_" (keys.map (fun k => valueStr (getValD r k)))

/-! ### Accumulating the `different_records` dict -/

/-- The nested dict `different_records : key_str -> column -> entry`,
modelled as an insertion-ordered association list. -/
abbrev RecDict := List (String × List (String × DiffEntry))

/-- Set `fields[col] = e` in an insertion-ordered dict. -/
def setCol (fields : List (String × DiffEntry)) (col : String) (e : DiffEntry) :
    List (String × DiffEntry) :=
  match fields with
  | [] => [(col, e)]
  | (c, e0) :: rest =>
    if c = col then (col, e) :: rest else (c, e0) :: setCol rest col e

/-- `different_records.setdefault(key_str, dict())[col] = e`. -/
def upsertRec (d : RecDict) (k col : String) (e : DiffEntry) : RecDict :=
  match d with
  | [] => [(k, [(col, e)])]
  | (k0, fs) :: rest =>
    if k0 = k then (k0, setCol fs col e) :: rest else (k0, fs) :: upsertRec rest k col e

/-- Record every differing pair of one value column into the dict, in row
order (the inner `for idx, row in diff_rows.iterrows()` loop). -/
def addColDiffs (tol : ℚ) (d1 d2 : Option Dtype) (keys : List String) (col : String) :
    List (Row × Row) → RecDict → Except String RecDict
  | [], acc => .ok acc
  | (r1, r2) :: rest, acc =>
    let v := getValD r1 col
    let w := getValD r2 col
    if fieldDiffMask tol d1 d2 v w then
      match computeDelta v w with
      | .error e => .error e
      | .ok d =>
        addColDiffs tol d1 d2 keys col rest
          (upsertRec acc (keyStr keys r1) col ⟨v, w, d⟩)
    else
      addColDiffs tol d1 d2 keys col rest acc

/-- The outer `for col in value_columns` loop of `_compare_by_key`. -/
def buildRecords (tol : ℚ) (cols1 cols2 : List (String × Dtype)) (keys : List String)
    (pairs : List (Row × Row)) : List String → RecDict → Except String RecDict
  | [], acc => .ok acc
  | col :: rest, acc =>
    match addColDiffs tol (dtypeOf cols1 col) (dtypeOf cols2 col) keys col pairs acc with
    | .error e => .error e
    | .ok acc2 => buildRecords tol cols1 cols2 keys pairs rest acc2

/-! ### The keyed full comparison (`_compare_full` / `_compare_by_key`) -/

/-- `list(set(df1.columns) & set(df2.columns))` (as an ordered list). -/
def commonCols (df1 df2 : DataFrame) : List String :=
  (colNames df1).filter (fun c => (colNames df2).contains c)

/-- `df[cols]`: restrict a dataframe to the given columns. -/
def restrictCols (df : DataFrame) (cs : List String) : DataFrame :=
  { cols := df.cols.filter (fun p => cs.contains p.1)
    rows := df.rows.map (fun r => r.filter (fun p => cs.contains p.1)) }

/-- The summary and differences produced by the full (keyed) strategy.
Summary keys the Python code never sets on a given path are `none`. -/
structure FullOutput where
  data_identical : Bool
  reason : Option String
  identical_records : Option ℤ
  total_internal_records : Option ℕ
  total_fund_records : Option ℕ
  common_cession_records : Option ℕ
  different_records_count : Option ℕ
  match_percentage : Option ℚ
  coverage_percentage : Option ℚ
  different_records : RecDict
  key_columns_used : List String
  value_columns_compared : List String
  deriving DecidableEq, Repr

/-- A `FullOutput` that only carries an explanatory reason (the early-return
paths of `_compare_full` / `_compare_by_key`). -/
def reasonOnly (msg : String) : FullOutput :=
  { data_identical := false
    reason := some msg
    identical_records := none
    total_internal_records := none
    total_fund_records := none
    common_cession_records := none
    different_records_count := none
    match_percentage := none
    coverage_percentage := none
    different_records := []
    key_columns_used := []
    value_columns_compared := [] }

/-- `CSVComparator._compare_by_key`. -/
def compareByKey (cfg : Config) (df1 df2 : DataFrame) (common : List String) :
    Except String FullOutput :=
  let validKeys := cfg.key_columns.filter (fun k => common.contains k)
  if validKeys.isEmpty then
    .ok (reasonOnly "Key columns not found in both files")
  else
    let df1c := restrictCols df1 common
    let df2c := restrictCols df2 common
    let pairs := mergedPairs validKeys df1c.rows df2c.rows
    let valueCols := common.filter (fun c => !validKeys.contains c)
    match buildRecords cfg.float_tolerance df1.cols df2.cols validKeys pairs valueCols [] with
    | .error e => .error e
    | .ok recs =>
      let n := pairs.length
      let dr := recs.length
      let ident : ℤ := (n : ℤ) - (dr : ℤ)
      .ok
        { data_identical := dr = 0
          reason := none
          identical_records := some ident
          total_internal_records := some df1c.rows.length
          total_fund_records := some df2c.rows.length
          common_cession_records := some n
          different_records_count := some dr
          match_percentage := some (if 0 < n then (ident : ℚ) / (n : ℚ) * 100 else 0)
          coverage_percentage :=
            some (if 0 < df2c.rows.length then (n : ℚ) / (df2c.rows.length : ℚ) * 100 else 0)
          different_records := recs
          key_columns_used := validKeys
          value_columns_compared := valueCols }

/-- `CSVComparator._compare_full`. -/
def compareFull (cfg : Config) (df1 df2 : DataFrame) : Except String FullOutput :=
  let common := commonCols df1 df2
  if common.isEmpty then
    .ok (reasonOnly "No common columns for comparison")
  else if !cfg.key_columns.isEmpty && cfg.key_columns.all (fun k => common.contains k) then
    compareByKey cfg df1 df2 common
  else
    .ok (reasonOnly "Key columns (NumeroContrato) required for cession comparison")

/-! ### The schema comparison (`_compare_schema`) -/

/-- Summary and differences of the schema strategy.  The Python sets are
modelled as de-duplicated name lists. -/
structure SchemaOutput where
  columns_match : Bool
  types_match : Bool
  total_columns_df1 : ℕ
  total_columns_df2 : ℕ
  common_columns_count : ℕ
  missing_in_df2 : List String
  missing_in_df1 : List String
  type_mismatches : List (String × Dtype × Dtype)
  deriving DecidableEq, Repr

/-- `CSVComparator._compare_schema`. -/
def compareSchema (df1 df2 : DataFrame) : SchemaOutput :=
  let cols1 := (colNames df1).dedup
  let cols2 := (colNames df2).dedup
  let missingInDf2 := cols1.filter (fun c => !cols2.contains c)
  let missingInDf1 := cols2.filter (fun c => !cols1.contains c)
  let common := cols1.filter (fun c => cols2.contains c)
  let mismatches := common.filterMap (fun c =>
    match dtypeOf df1.cols c, dtypeOf df2.cols c with
    | some t1, some t2 => if t1 ≠ t2 then some (c, t1, t2) else none
    | _, _ => none)
  { columns_match := missingInDf1.isEmpty && missingInDf2.isEmpty
    types_match := mismatches.isEmpty
    total_columns_df1 := cols1.length
    total_columns_df2 := cols2.length
    common_columns_count := common.length
    missing_in_df2 := missingInDf2
    missing_in_df1 := missingInDf1
    type_mismatches := mismatches }

/-! ### The statistical comparison (`_compare_statistics`) -/

/-- The cell values of one column, top to bottom. -/
def seriesVals (df : DataFrame) (c : String) : List Value :=
  df.rows.map (fun r => getValD r c)

/-- The numeric readings of the non-null cells of a series. -/
def numericVals (vs : List Value) : List ℚ :=
  vs.filterMap toRat?

/-- Mean of a list of rationals; `none` models the `NaN` returned on an
empty (all-null) series. -/
def ratMean (xs : List ℚ) : Option ℚ :=
  if xs.length = 0 then none else some (xs.sum / (xs.length : ℚ))

/-- Sample variance (`ddof=1`); `none` models the `NaN` returned when fewer
than two values remain. -/
def ratVar (xs : List ℚ) : Option ℚ :=
  if xs.length < 2 then none
  else some ((xs.map (fun x => (x - xs.sum / (xs.length : ℚ)) ^ 2)).sum / ((xs.length - 1 : ℕ) : ℚ))

/-- May `Series.mean`/`Series.std` be computed on this column without
raising?  Numeric dtypes always succeed; an `object` column succeeds exactly
when every non-null entry is numeric. -/
def seriesNumOk (d : Option Dtype) (vs : List Value) : Bool :=
  isNumDtype d || vs.all (fun v => v.isNa || (toRat? v).isSome)

/-- `Series.mean()` (`skipna=True`); raises on non-numeric content. -/
def seriesMean (d : Option Dtype) (vs : List Value) : Except String (Option ℚ) :=
  if seriesNumOk d vs then .ok (ratMean (numericVals vs)) else .error "TypeError"

/-- `Series.std()` (`skipna=True`, `ddof=1`), with the square root kept
abstract. -/
def seriesStd (sqrtFn : ℚ → ℚ) (d : Option Dtype) (vs : List Value) :
    Except String (Option ℚ) :=
  if seriesNumOk d vs then .ok ((ratVar (numericVals vs)).map sqrtFn) else .error "TypeError"

/-- `|a - b|` on two possibly-`NaN` numbers (`NaN` propagates). -/
def absDiffO : Option ℚ → Option ℚ → Option ℚ
  | some a, some b => some |a - b|
  | _, _ => none

/-- One entry of the `numeric_differences` dict: computed statistics, or the
error marker recorded when the computation raised. -/
inductive StatResult
  | stats (mean_difference std_difference : Option ℚ) (significant : Bool)
  | err (msg : String)
  deriving DecidableEq, Repr

/-- The `try`-block of `_compare_statistics` for one column, with the
`except` clause recording the error marker. -/
def statEntry (tol : ℚ) (sqrtFn : ℚ → ℚ) (df1 df2 : DataFrame) (col : String) : StatResult :=
  let d1 := dtypeOf df1.cols col
  let d2 := dtypeOf df2.cols col
  let vs1 := seriesVals df1 col
  let vs2 := seriesVals df2 col
  match seriesMean d1 vs1, seriesMean d2 vs2,
      seriesStd sqrtFn d1 vs1, seriesStd sqrtFn d2 vs2 with
  | .ok m1, .ok m2, .ok s1, .ok s2 =>
    let md := absDiffO m1 m2
    .stats md (absDiffO s1 s2)
      (match md with | some d => d > tol | none => false)
  | _, _, _, _ => .err "Could not compare numeric values"

/-- The names of the numeric (`np.number`) columns of a dataframe
(`df.select_dtypes(include=[np.number]).columns`). -/
def numericColNames (df : DataFrame) : List String :=
  (df.cols.filter (fun p => isNumDtype (some p.2))).map (fun p => p.1)

/-- Summary and differences of the statistical strategy (the `describe()`
echo is not modelled). -/
structure StatOutput where
  shape_match : Bool
  rows_df1 : ℕ
  rows_df2 : ℕ
  columns_df1 : ℕ
  columns_df2 : ℕ
  numeric_differences : List (String × StatResult)
  deriving DecidableEq, Repr

/-- `CSVComparator._compare_statistics`.  All exceptions inside the numeric
loop are caught, so the strategy itself is total. -/
def compareStatistics (cfg : Config) (sqrtFn : ℚ → ℚ) (df1 df2 : DataFrame) : StatOutput :=
  { shape_match :=
      df1.rows.length = df2.rows.length && df1.cols.length = df2.cols.length
    rows_df1 := df1.rows.length
    rows_df2 := df2.rows.length
    columns_df1 := df1.cols.length
    columns_df2 := df2.cols.length
    numeric_differences := (numericColNames df1).filterMap (fun c =>
      if (colNames df2).contains c then
        some (c, statEntry cfg.float_tolerance sqrtFn df1 df2 c)
      else none) }

/-! ### The subset comparison (`_compare_subset`) -/

/-- The normalized tuple of a row over the given columns, as used by
`drop_duplicates` and by a merge keyed on every common column. -/
def normRow (cs : List String) (r : Row) : List Value :=
  cs.map (fun c => normVal (getValD r c))

/-- `drop_duplicates` (keep the first occurrence of each normalized tuple). -/
def dedupRows (cs : List String) : List Row → List Row
  | [] => []
  | r :: rs =>
    r :: dedupRows cs (rs.filter (fun r2 => !(normRow cs r2 = normRow cs r)))
termination_by l => l.length
decreasing_by
  exact Nat.lt_succ_of_le (List.length_filter_le _ _)

/-- Summary of the subset strategy. -/
structure SubsetOutput where
  is_subset : Bool
  reason : Option String
  common_columns_count : Option ℕ
  unique_rows_df1 : Option ℕ
  unique_rows_df2 : Option ℕ
  matching_rows : Option ℕ
  deriving DecidableEq, Repr

/-- `CSVComparator._compare_subset`. -/
def compareSubset (df1 df2 : DataFrame) : SubsetOutput :=
  let common := commonCols df1 df2
  if common.isEmpty then
    { is_subset := false
      reason := some "No common columns"
      common_columns_count := none
      unique_rows_df1 := none
      unique_rows_df2 := none
      matching_rows := none }
  else
    let d1 := dedupRows common (restrictCols df1 common).rows
    let d2 := dedupRows common (restrictCols df2 common).rows
    let merged := mergedPairs common d1 d2
    { is_subset := merged.length = d1.length
      reason := none
      common_columns_count := some common.length
      unique_rows_df1 := some d1.length
      unique_rows_df2 := some d2.length
      matching_rows := some merged.length }

/-! ### Dispatch (`compare_dataframes`) -/

/-- The requested comparison mode.  The Python parameter is dynamically
typed: besides the four `ComparisonType` members any other value can be
passed, which `other` stands for. -/
inductive Mode
  | schema
  | full
  | statistical
  | subset
  | other (tag : String)
  deriving DecidableEq, Repr

/-- The strategy-specific part of a `ComparisonResult`. -/
inductive StrategyOutput
  | schema (o : SchemaOutput)
  | statistical (o : StatOutput)
  | subset (o : SubsetOutput)
  | full (o : FullOutput)
  deriving DecidableEq, Repr

/-- The result of one comparison call (the echoed metadata dict is not
modelled). -/
structure ComparisonResult where
  comparison_type : Mode
  output : StrategyOutput
  deriving DecidableEq, Repr

/-- `CSVComparator.compare_dataframes`: preprocess both inputs, then
dispatch on the mode; the `else` arm of the dispatch performs the full
comparison. -/
def compareDataframes (cfg : Config) (sqrtFn : ℚ → ℚ) (mode : Mode) (df1 df2 : DataFrame) :
    Except String ComparisonResult :=
  let d1 := preprocessDataframe cfg df1
  let d2 := preprocessDataframe cfg df2
  match mode with
  | .schema => .ok ⟨mode, .schema (compareSchema d1 d2)⟩
  | .statistical => .ok ⟨mode, .statistical (compareStatistics cfg sqrtFn d1 d2)⟩
  | .subset => .ok ⟨mode, .subset (compareSubset d1 d2)⟩
  | _ => (compareFull cfg d1 d2).map (fun o => ⟨mode, .full o⟩)

/-- Did the call return normally (no exception)? -/
def isOkResult : Except String ComparisonResult → Bool
  | .ok _ => true
  | .error _ => false

/-- The escaped exception message, if the call raised. -/
def errMsg : Except String ComparisonResult → Option String
  | .error m => some m
  | .ok _ => none

/-- Extract the full-comparison output, when the call returned one. -/
def fullOutOf : Except String ComparisonResult → Option FullOutput
  | .ok ⟨_, .full o⟩ => some o
  | _ => none

/-- Extract `summary['data_identical']` from a full-comparison result. -/
def fullDataIdentical (x : Except String ComparisonResult) : Option Bool :=
  (fullOutOf x).map (fun o => o.data_identical)

instance {ε α : Type} [DecidableEq ε] [DecidableEq α] : DecidableEq (Except ε α)
  | .error x, .error y =>
    if h : x = y then .isTrue (by rw [h]) else .isFalse (fun c => by cases c; exact h rfl)
  | .error _, .ok _ => .isFalse (fun c => by cases c)
  | .ok _, .error _ => .isFalse (fun c => by cases c)
  | .ok x, .ok y =>
    if h : x = y then .isTrue (by rw [h]) else .isFalse (fun c => by cases c; exact h rfl)

/-! ### Concrete fixtures used by counterexamples and witnesses -/

/-- A configuration with zero tolerance, no normalization and key column `k`. -/
def cfgK : Config := ⟨0, false, false, [], ["k"]⟩

/-- A configuration with no key columns and no normalization. -/
def cfgNoKeys : Config := ⟨0, false, false, [], []⟩

/-- The default configuration plus key column `k` (every other option
omitted). -/
def cfg10 : Config := mkConfig ⟨none, none, none, none, some ["k"]⟩

/-- An empty dataframe. -/
def dfE : DataFrame := ⟨[], []⟩

/-- One row, key `k = 1`, float column `v` holding a missing value. -/
def dfA2 : DataFrame := ⟨[("k", .int64), ("v", .float64)], [[("k", .int 1), ("v", .na)]]⟩

/-- One row, key `k = 1`, float column `v = 5.0`. -/
def dfB2 : DataFrame := ⟨[("k", .int64), ("v", .float64)], [[("k", .int 1), ("v", .float 5)]]⟩

/-- One row, key `k = 1`, text column `v = "a"`. -/
def dfA3 : DataFrame := ⟨[("k", .int64), ("v", .obj)], [[("k", .int 1), ("v", .str "a")]]⟩

/-- One row, key `k = 1`, text column `v = "b"`. -/
def dfB3 : DataFrame := ⟨[("k", .int64), ("v", .obj)], [[("k", .int 1), ("v", .str "b")]]⟩

/-- One row holding only the key column `k = 1`. -/
def dfK1 : DataFrame := ⟨[("k", .int64)], [[("k", .int 1)]]⟩

/-- One row, key `k = 1` and a text column `v` holding the given string. -/
def dfS (s : String) : DataFrame :=
  ⟨[("k", .int64), ("v", .obj)], [[("k", .int 1), ("v", .str s)]]⟩

/-- One float column `v = 1.0`. -/
def stA : DataFrame := ⟨[("v", .float64)], [[("v", .float 1)]]⟩

/-- One `object` column `v = "a"`. -/
def stB : DataFrame := ⟨[("v", .obj)], [[("v", .str "a")]]⟩

/-- Rows `1, 1, 2` in column `a`. -/
def sA : DataFrame := ⟨[("a", .int64)], [[("a", .int 1)], [("a", .int 1)], [("a", .int 2)]]⟩

/-- Rows `2, 1, 3` in column `a`. -/
def sB : DataFrame := ⟨[("a", .int64)], [[("a", .int 2)], [("a", .int 1)], [("a", .int 3)]]⟩

/-- The full-comparison output of comparing `dfK1` with itself under
`cfgK`: one matched pair, no value columns, no differences. -/
def fullOut1 : FullOutput :=
  (compareFull cfgK dfK1 dfK1).toOption.getD (reasonOnly "")

/-! ## Claim C1 (corrected) -/

/-- C1, counterexample: calling `compare_dataframes` with a comparison mode
that is none of the four known modes does **not** fail: on two (empty)
dataframes it completes and returns a `ComparisonResult`.  This refutes the
claim that an unknown mode fails fast with an error. -/
theorem unknown_mode_completes_counterexample :
    isOkResult (compareDataframes cfgK id (Mode.other "bogus") dfE dfE) = true := by
  decide

/-- C1, amended: an unknown comparison mode is not rejected; the dispatch
falls through to the `else` arm, so the call behaves exactly like a FULL
comparison (producing the same strategy output, with the unknown mode echoed
in `comparison_type`). -/
theorem unknown_mode_dispatches_to_full (cfg : Config) (sqrtFn : ℚ → ℚ) (tag : String)
    (df1 df2 : DataFrame) :
    compareDataframes cfg sqrtFn (Mode.other tag) df1 df2
      = (compareFull cfg (preprocessDataframe cfg df1) (preprocessDataframe cfg df2)).map
          (fun o => ⟨Mode.other tag, StrategyOutput.full o⟩)
    ∧ (compareDataframes cfg sqrtFn (Mode.other tag) df1 df2).map (fun r => r.output)
      = (compareDataframes cfg sqrtFn Mode.full df1 df2).map (fun r => r.output) := by
  constructor
  · rfl
  · cases h : compareFull cfg (preprocessDataframe cfg df1) (preprocessDataframe cfg df2) <;>
      simp [compareDataframes, h, Except.map]

/-! ## Claim C2 (corrected) -/

/-- C2, counterexample: in keyed mode, with key `k = 1` matched and the
common column `v` of float dtype on both sides holding `NaN` internally and
`5.0` in the fund data, the record is judged **identical**
(`data_identical = true`): a one-sided null in a numeric/numeric column does
not contribute a difference, refuting the claim that it always does. -/
theorem numeric_one_sided_null_counterexample :
    fullDataIdentical (compareDataframes cfgK id Mode.full dfA2 dfB2) = some true := by
  decide

/-- C2, amended: the per-field difference mask of `_compare_by_key` treats
nulls as the claim states only on the fallback (non numeric/numeric) branch:
there, exactly one null is a difference and two nulls are equal.  When both
columns have numeric dtype, a null on either side makes the field compare
**equal** (the `NaN` comparison `abs(a-b) > tol` is `False`), so one-sided
nullness is not a difference there. -/
theorem null_field_equality_semantics (tol : ℚ) (d1 d2 : Option Dtype) (v w : Value) :
    ((isNumDtype d1 && isNumDtype d2) = true → (v.isNa = true ∨ w.isNa = true) →
      fieldDiffMask tol d1 d2 v w = false)
    ∧ ((isNumDtype d1 && isNumDtype d2) = false → v.isNa ≠ w.isNa →
      fieldDiffMask tol d1 d2 v w = true)
    ∧ ((isNumDtype d1 && isNumDtype d2) = false → v.isNa = true → w.isNa = true →
      fieldDiffMask tol d1 d2 v w = false) := by
  refine ⟨fun hn hna => ?_, fun hn hna => ?_, fun hn hv hw => ?_⟩
  · rw [fieldDiffMask, if_pos hn]
    cases v <;> cases w <;> simp_all [numDiffMask, toRat?, Value.isNa]
  · rw [fieldDiffMask, if_neg (by simp [hn])]
    cases v <;> cases w <;> simp_all [objDiffMask, pyEq, Value.isNa]
  · rw [fieldDiffMask, if_neg (by simp [hn])]
    cases v <;> cases w <;> simp_all [objDiffMask, pyEq, Value.isNa]

/-- C2, witness: the amended theorem applied at a numeric/numeric column
pair with a one-sided null (`NaN` vs `5.0`) and at an object column pair
with a one-sided null. -/
theorem null_field_equality_semantics_witness :
    fieldDiffMask 0 (some Dtype.float64) (some Dtype.float64) Value.na (Value.float 5) = false
    ∧ fieldDiffMask 0 (some Dtype.obj) (some Dtype.obj) Value.na (Value.str "x") = true := by
  constructor
  · exact (null_field_equality_semantics 0 (some Dtype.float64) (some Dtype.float64)
      Value.na (Value.float 5)).1 (by decide) (Or.inl (by decide))
  · exact (null_field_equality_semantics 0 (some Dtype.obj) (some Dtype.obj)
      Value.na (Value.str "x")).2.1 (by decide) (by decide)

/-! ## Claim C3 (code_bug) -/

/-- C3: the claim (and the spec) say that for a differing non-key field that
is not a null-free numeric/numeric pair the difference record stores `"N/A"`
as the delta.  The code instead evaluates
`row[col_internal] - row[col_fund]` whenever both values are non-null, which
raises `TypeError` for string values: with matched key `k = 1` and object
column `v` holding `"a"` vs `"b"`, the whole comparison call raises instead
of returning a result. -/
theorem string_difference_raises :
    errMsg (compareDataframes cfgK id Mode.full dfA3 dfB3)
      = some "TypeError: unsupported operand type(s) for -" := by
  decide

/-! ## Claim C5 (confirmed) -/

/-- C5: whenever the keyed comparison completes and its summary carries a
matched-pair count `n`, an identical-record count `i` and a fund row count
`b`, the percentages satisfy exactly the guarded formulas
`match = i / n * 100` if `n > 0` else `0` and `coverage = n / b * 100` if
`b > 0` else `0`.  In this rational-valued model both are total values —
the zero guards mean no division by a zero denominator is ever relied on,
so the percentages are finite for all inputs. -/
theorem percentage_formulas (cfg : Config) (df1 df2 : DataFrame) (out : FullOutput)
    (h : compareFull cfg df1 df2 = Except.ok out) (n b : ℕ) (i : ℤ)
    (hn : out.common_cession_records = some n)
    (hi : out.identical_records = some i)
    (hb : out.total_fund_records = some b) :
    out.match_percentage = some (if 0 < n then (i : ℚ) / (n : ℚ) * 100 else 0)
    ∧ out.coverage_percentage = some (if 0 < b then (n : ℚ) / (b : ℚ) * 100 else 0) := by
  simp only [compareFull] at h
  split at h
  · cases h
    simp [reasonOnly] at hn
  · split at h
    · simp only [compareByKey] at h
      split at h
      · cases h
        simp [reasonOnly] at hn
      · split at h
        · cases h
        · cases h
          simp only [Option.some.injEq] at hn hi hb
          subst hn
          subst hi
          subst hb
          exact ⟨rfl, rfl⟩
    · cases h
      simp [reasonOnly] at hn

/-- C5, witness: the theorem applied to a one-row self-comparison on key
column `k`, where one pair matched out of one fund row and zero records
differ, giving `match = 100` and `coverage = 100`. -/
theorem percentage_formulas_witness :
    FullOutput.match_percentage (fullOut1) = some (if 0 < (1 : ℕ) then ((1 : ℤ) : ℚ) / ((1 : ℕ) : ℚ) * 100 else 0)
    ∧ FullOutput.coverage_percentage (fullOut1) = some (if 0 < (1 : ℕ) then ((1 : ℕ) : ℚ) / ((1 : ℕ) : ℚ) * 100 else 0) :=
  percentage_formulas cfgK dfK1 dfK1 fullOut1 rfl 1 1 1 rfl rfl rfl

/-! ## Claim C6 (confirmed) -/

/-- C6: in keyed (full) mode, if the configured key columns are empty, or
some key column is missing from the common columns of the preprocessed
datasets, or there are no common columns at all, the comparison completes
normally, reports `data_identical = false` with an explanatory reason, and
performs no record matching (no matched-pair count, no difference
records). -/
theorem invalid_keys_reported_not_raised (cfg : Config) (sqrtFn : ℚ → ℚ) (df1 df2 : DataFrame)
    (h : cfg.key_columns = []
      ∨ (∃ k, k ∈ cfg.key_columns
          ∧ k ∉ commonCols (preprocessDataframe cfg df1) (preprocessDataframe cfg df2))
      ∨ commonCols (preprocessDataframe cfg df1) (preprocessDataframe cfg df2) = []) :
    isOkResult (compareDataframes cfg sqrtFn Mode.full df1 df2) = true
    ∧ fullDataIdentical (compareDataframes cfg sqrtFn Mode.full df1 df2) = some false
    ∧ ((fullOutOf (compareDataframes cfg sqrtFn Mode.full df1 df2)).map (fun o => o.reason)
          = some (some "No common columns for comparison")
        ∨ (fullOutOf (compareDataframes cfg sqrtFn Mode.full df1 df2)).map (fun o => o.reason)
          = some (some "Key columns (NumeroContrato) required for cession comparison"))
    ∧ (fullOutOf (compareDataframes cfg sqrtFn Mode.full df1 df2)).map
        (fun o => o.common_cession_records) = some none
    ∧ (fullOutOf (compareDataframes cfg sqrtFn Mode.full df1 df2)).map
        (fun o => o.different_records) = some [] := by
  have key : compareFull cfg (preprocessDataframe cfg df1) (preprocessDataframe cfg df2)
      = Except.ok (reasonOnly "No common columns for comparison")
    ∨ compareFull cfg (preprocessDataframe cfg df1) (preprocessDataframe cfg df2)
      = Except.ok (reasonOnly "Key columns (NumeroContrato) required for cession comparison") := by
    by_cases hc :
        (commonCols (preprocessDataframe cfg df1) (preprocessDataframe cfg df2)).isEmpty = true
    · left
      simp only [compareFull, hc, if_true]
    · right
      rcases h with h0 | ⟨k, hk, hkc⟩ | h0
      · simp only [compareFull, hc]
        simp [h0]
      · have hall : (cfg.key_columns.all (fun k =>
            (commonCols (preprocessDataframe cfg df1) (preprocessDataframe cfg df2)).contains k))
            = false := by
          rcases hx : cfg.key_columns.all (fun k =>
            (commonCols (preprocessDataframe cfg df1) (preprocessDataframe cfg df2)).contains k) with _ | _
          · rfl
          · exfalso
            have := List.all_eq_true.mp hx k hk
            simp only [List.contains_iff_exists_mem_beq] at this
            rcases this with ⟨a, ha, hbeq⟩
            exact hkc (by
              have : k = a := by simpa using hbeq
              rw [this]; exact ha)
        simp only [compareFull, hc, hall, Bool.and_false, Bool.false_eq_true, if_false]
      · exfalso
        rw [h0] at hc
        simp at hc
  rcases key with h1 | h1 <;>
    simp [compareDataframes, h1, fullOutOf, fullDataIdentical, isOkResult, reasonOnly, Except.map]

/-- C6, witness: the theorem applied with an empty key-column list to a
one-column self-comparison: the call completes with
`data_identical = false` and the explanatory key-column reason. -/
theorem invalid_keys_reported_not_raised_witness :
    isOkResult (compareDataframes cfgNoKeys id Mode.full dfK1 dfK1) = true
    ∧ fullDataIdentical (compareDataframes cfgNoKeys id Mode.full dfK1 dfK1) = some false
    ∧ ((fullOutOf (compareDataframes cfgNoKeys id Mode.full dfK1 dfK1)).map (fun o => o.reason)
          = some (some "No common columns for comparison")
        ∨ (fullOutOf (compareDataframes cfgNoKeys id Mode.full dfK1 dfK1)).map (fun o => o.reason)
          = some (some "Key columns (NumeroContrato) required for cession comparison"))
    ∧ (fullOutOf (compareDataframes cfgNoKeys id Mode.full dfK1 dfK1)).map
        (fun o => o.common_cession_records) = some none
    ∧ (fullOutOf (compareDataframes cfgNoKeys id Mode.full dfK1 dfK1)).map
        (fun o => o.different_records) = some [] :=
  invalid_keys_reported_not_raised cfgNoKeys id dfK1 dfK1 (Or.inl (by decide))

/-! ## Claim C4 (confirmed) -/

/-- Two rows join-match exactly when their normalized key tuples agree. -/
theorem keyMatch_iff (keys : List String) (r1 r2 : Row) :
    keyMatch keys r1 r2 = true ↔ normRow keys r1 = normRow keys r2 := by
  simp [keyMatch, mergeEq, normRow, List.all_eq_true, List.map_eq_map_iff]

/-- C4: the keyed join is an unconditioned inner equality join: for every
normalized key tuple `t`, the number of matched pairs whose key tuple is `t`
is exactly (number of A-rows with key `t`) × (number of B-rows with key
`t`).  In particular a key appearing twice in A and three times in B yields
exactly `2 × 3 = 6` matched pairs. -/
theorem keyed_join_multiplicity (keys : List String) (rows1 rows2 : List Row) (t : List Value) :
    ((mergedPairs keys rows1 rows2).filter (fun p => normRow keys p.1 = t)).length
      = (rows1.filter (fun r => normRow keys r = t)).length
        * (rows2.filter (fun r => normRow keys r = t)).length := by
  induction rows1 with
  | nil => simp [mergedPairs]
  | cons r rest ih =>
    have hsplit : mergedPairs keys (r :: rest) rows2
        = ((rows2.filter (fun r2 => keyMatch keys r r2)).map (fun r2 => (r, r2)))
          ++ mergedPairs keys rest rows2 := by
      simp [mergedPairs]
    rw [hsplit, List.filter_append, List.length_append, ih, List.filter_map]
    simp only [List.length_map]
    by_cases ht : normRow keys r = t
    · have hconst : ((fun p : Row × Row => decide (normRow keys p.1 = t)) ∘
          (fun r2 : Row => (r, r2))) = fun _ : Row => true := by
        funext x
        simp [Function.comp, ht]
      rw [hconst]
      have hall : List.filter (fun _ : Row => true)
          (List.filter (fun r2 => keyMatch keys r r2) rows2)
          = List.filter (fun r2 => keyMatch keys r r2) rows2 :=
        List.filter_eq_self.mpr (fun x _ => rfl)
      rw [hall]
      have hB : List.filter (fun r2 => keyMatch keys r r2) rows2
          = List.filter (fun x => decide (normRow keys x = t)) rows2 := by
        apply List.filter_congr
        intro x _
        rcases hx : keyMatch keys r x with _ | _
        · symm
          simp only [decide_eq_false_iff_not]
          intro hc
          have h2 := (keyMatch_iff keys r x).mpr (by rw [ht, hc])
          simp [h2] at hx
        · symm
          simp only [decide_eq_true_eq]
          exact ((keyMatch_iff keys r x).mp hx).symm.trans ht
      rw [hB]
      have hr : ((r :: rest).filter (fun x => decide (normRow keys x = t)))
          = r :: (rest.filter (fun x => decide (normRow keys x = t))) := by
        simp [List.filter_cons, ht]
      rw [hr, List.length_cons, Nat.succ_mul]
      omega
    · have hconst : ((fun p : Row × Row => decide (normRow keys p.1 = t)) ∘
          (fun r2 : Row => (r, r2))) = fun _ : Row => false := by
        funext x
        simp [Function.comp, ht]
      rw [hconst]
      simp [List.filter_cons, ht]

/-! ## Claim C7 (corrected) -/

/-- Looking a key up in a dict built by keeping some elements of a
duplicate-free key list. -/
theorem lookup_filterMap_keyed {β : Type} (l : List String) (hnd : l.Nodup)
    (g : String → Bool) (f : String → β) (col : String) :
    (l.filterMap (fun c => if g c then some (c, f c) else none)).lookup col
      = if col ∈ l ∧ g col = true then some (f col) else none := by
  induction l with
  | nil => simp
  | cons a rest ih =>
    rcases List.nodup_cons.mp hnd with ⟨hna, hrest⟩
    by_cases hga : g a = true
    · by_cases hca : col = a
      · subst hca
        simp [List.filterMap_cons, hga, List.lookup_cons]
      · simp only [List.filterMap_cons, hga, if_true, List.lookup_cons]
        have : (col == a) = false := by simpa using hca
        simp only [this]
        rw [ih hrest]
        simp [List.mem_cons, hca]
    · simp only [List.filterMap_cons, hga]
      rw [if_neg (by simp [hga]), ih hrest]
      by_cases hca : col = a
      · subst hca
        simp [hna, hga]
      · simp [List.mem_cons, hca]

/-- Column membership in the numeric-column list, for duplicate-free
column names. -/
theorem mem_numericColNames_iff (cols : List (String × Dtype))
    (hnd : (cols.map (fun p => p.1)).Nodup) (col : String) :
    col ∈ (cols.filter (fun p => isNumDtype (some p.2))).map (fun p => p.1)
      ↔ isNumDtype (dtypeOf cols col) = true := by
  induction cols with
  | nil => simp [dtypeOf, isNumDtype]
  | cons a rest ih =>
    rw [List.map_cons, List.nodup_cons] at hnd
    obtain ⟨hna, hrest⟩ := hnd
    by_cases hca : a.1 = col
    · have hd : dtypeOf (a :: rest) col = some a.2 := by
        simp only [dtypeOf]
        rw [List.find?_cons_of_pos _ (by simp [hca])]
        rfl
      rw [hd]
      by_cases hnum : isNumDtype (some a.2) = true
      · rw [List.filter_cons, if_pos hnum, List.map_cons, hnum]
        simp [hca]
      · rw [List.filter_cons, if_neg (by simpa using hnum)]
        simp only [hnum, Bool.false_eq_true, iff_false]
        intro hmem
        apply hna
        rw [hca]
        obtain ⟨x, hx, hpx⟩ := List.mem_map.mp hmem
        exact hpx ▸ List.mem_map_of_mem _ (List.mem_of_mem_filter hx)
    · have hd : dtypeOf (a :: rest) col = dtypeOf rest col := by
        simp only [dtypeOf]
        rw [List.find?_cons_of_neg _ (by simp [hca])]
      rw [hd, ← ih hrest]
      by_cases hnum : isNumDtype (some a.2) = true
      · rw [List.filter_cons, if_pos hnum, List.map_cons]
        have hcc : ¬(col = a.1) := fun h => hca h.symm
        simp [List.mem_cons, hcc]
      · rw [List.filter_cons, if_neg (by simpa using hnum)]

/-- C7, counterexample: a column numeric in the first dataset but holding
strings in the second is **not** skipped: the statistical strategy records
an error marker for it in `numeric_differences`, refuting the claim that
such a column is skipped from the numeric comparison. -/
theorem statistical_error_entry_counterexample :
    (compareStatistics cfgK id stA stB).numeric_differences
      = [("v", StatResult.err "Could not compare numeric values")] := by
  decide

/-- C7, amended (for dataframes with duplicate-free column names): a column
absent from the second dataset, or not numeric in the first dataset, is
skipped from `numeric_differences`; a column numeric in the first dataset
and present in the second always gets an entry (so a numeric/non-numeric
column is *not* skipped — when the mean/std computation raises, the caught
exception is recorded as an error marker); and a column numeric in both
gets `meanDifference = |meanA − meanB|`, `stdDifference = |stdA − stdB|`
and `significantDifference = meanDifference > floatTolerance` (with `NaN`
statistics propagating to `none` and a `NaN` mean difference counting as
not significant). -/
theorem statistical_skip_semantics (cfg : Config) (sqrtFn : ℚ → ℚ) (df1 df2 : DataFrame)
    (col : String) (hnd : (colNames df1).Nodup) :
    ((colNames df2).contains col = false →
      ((compareStatistics cfg sqrtFn df1 df2).numeric_differences).lookup col = none)
    ∧ (isNumDtype (dtypeOf df1.cols col) = false →
      ((compareStatistics cfg sqrtFn df1 df2).numeric_differences).lookup col = none)
    ∧ (isNumDtype (dtypeOf df1.cols col) = true → (colNames df2).contains col = true →
      ((compareStatistics cfg sqrtFn df1 df2).numeric_differences).lookup col
        = some (statEntry cfg.float_tolerance sqrtFn df1 df2 col))
    ∧ (isNumDtype (dtypeOf df1.cols col) = true → isNumDtype (dtypeOf df2.cols col) = true →
      statEntry cfg.float_tolerance sqrtFn df1 df2 col
        = StatResult.stats
            (absDiffO (ratMean (numericVals (seriesVals df1 col)))
              (ratMean (numericVals (seriesVals df2 col))))
            (absDiffO ((ratVar (numericVals (seriesVals df1 col))).map sqrtFn)
              ((ratVar (numericVals (seriesVals df2 col))).map sqrtFn))
            (match absDiffO (ratMean (numericVals (seriesVals df1 col)))
                (ratMean (numericVals (seriesVals df2 col))) with
              | some d => d > cfg.float_tolerance
              | none => false)) := by
  have hmem := mem_numericColNames_iff df1.cols hnd col
  have hnd2 : ((df1.cols.filter (fun p => isNumDtype (some p.2))).map (fun p => p.1)).Nodup :=
    List.Nodup.sublist (List.Sublist.map _ (List.filter_sublist _))
      (by simpa [colNames] using hnd)
  have hlk := lookup_filterMap_keyed
    ((df1.cols.filter (fun p => isNumDtype (some p.2))).map (fun p => p.1)) hnd2
    (fun c => (colNames df2).contains c)
    (fun c => statEntry cfg.float_tolerance sqrtFn df1 df2 c) col
  have hrepr : (compareStatistics cfg sqrtFn df1 df2).numeric_differences
      = ((df1.cols.filter (fun p => isNumDtype (some p.2))).map (fun p => p.1)).filterMap
          (fun c => if (colNames df2).contains c then
              some (c, statEntry cfg.float_tolerance sqrtFn df1 df2 c) else none) := rfl
  refine ⟨fun h2 => ?_, fun h1 => ?_, fun h1 h2 => ?_, fun h1 h2 => ?_⟩
  · rw [hrepr, hlk, if_neg]
    rintro ⟨-, hc⟩
    rw [h2] at hc
    cases hc
  · rw [hrepr, hlk, if_neg]
    rintro ⟨hin, -⟩
    exact absurd (hmem.mp hin) (by simp [h1])
  · rw [hrepr, hlk, if_pos ⟨hmem.mpr h1, h2⟩]
  · simp [statEntry, seriesMean, seriesStd, seriesNumOk, h1, h2]

/-- C7, witness: the amended theorem applied to the self-comparison of a
one-row float dataframe: the float column `v` is numeric on both sides and
receives a computed statistics entry. -/
theorem statistical_skip_semantics_witness :
    ((compareStatistics cfgK id stA stA).numeric_differences).lookup "v"
      = some (statEntry cfgK.float_tolerance id stA stA "v")
    ∧ statEntry cfgK.float_tolerance id stA stA "v"
      = StatResult.stats
          (absDiffO (ratMean (numericVals (seriesVals stA "v")))
            (ratMean (numericVals (seriesVals stA "v"))))
          (absDiffO ((ratVar (numericVals (seriesVals stA "v"))).map id)
            ((ratVar (numericVals (seriesVals stA "v"))).map id))
          (match absDiffO (ratMean (numericVals (seriesVals stA "v")))
              (ratMean (numericVals (seriesVals stA "v"))) with
            | some d => d > cfgK.float_tolerance
            | none => false) :=
  ⟨(statistical_skip_semantics cfgK id stA stA "v" (by decide)).2.2.1 (by decide) (by decide),
   (statistical_skip_semantics cfgK id stA stA "v" (by decide)).2.2.2 (by decide) (by decide)⟩

/-! ## Claim C8 (confirmed) -/

/-- Valid basic-latin lower-casing: `Char.ofNat` of an upper-case code plus
32 reads back as that code. -/
theorem charOfNat_toNat (n : ℕ) (h1 : 65 ≤ n) (h2 : n ≤ 90) :
    (Char.ofNat (n + 32)).toNat = n + 32 := by
  interval_cases n <;> decide

/-- Case folding is idempotent. -/
theorem toLower_toLower (c : Char) : Char.toLower (Char.toLower c) = Char.toLower c := by
  by_cases h : 65 ≤ c.toNat ∧ c.toNat ≤ 90
  · have h1 : Char.toLower c = Char.ofNat (c.toNat + 32) := by
      simp only [Char.toLower]
      rw [if_pos ⟨h.1, h.2⟩]
    have h2 : (Char.toLower c).toNat = c.toNat + 32 := by
      rw [h1]
      exact charOfNat_toNat c.toNat h.1 h.2
    conv_lhs => rw [Char.toLower]
    rw [if_neg]
    rw [h2]
    omega
  · have h1 : Char.toLower c = c := by
      simp only [Char.toLower]
      rw [if_neg h]
    rw [h1, h1]

/-- Case folding never turns a character into whitespace or back. -/
theorem pyWs_toLower (c : Char) : pyWs (Char.toLower c) = pyWs c := by
  by_cases h : 65 ≤ c.toNat ∧ c.toNat ≤ 90
  · have h1 : Char.toLower c = Char.ofNat (c.toNat + 32) := by
      simp only [Char.toLower]
      rw [if_pos ⟨h.1, h.2⟩]
    have h2 : (Char.toLower c).toNat = c.toNat + 32 := by
      rw [h1]
      exact charOfNat_toNat c.toNat h.1 h.2
    have hA : pyWs (Char.toLower c) = false := by
      simp only [pyWs, h2, Bool.or_eq_false_iff, decide_eq_false_iff_not]
      omega
    have hB : pyWs c = false := by
      simp only [pyWs, Bool.or_eq_false_iff, decide_eq_false_iff_not]
      omega
    rw [hA, hB]
  · have h1 : Char.toLower c = c := by
      simp only [Char.toLower]
      rw [if_neg h]
    rw [h1]

/-- If a map leaves a list unchanged it fixes every element. -/
theorem map_eq_self_forall {α : Type} (f : α → α) (l : List α) (h : List.map f l = l) :
    ∀ x ∈ l, f x = x := by
  induction l with
  | nil => intro x hx; cases hx
  | cons a t ih =>
    rw [List.map_cons] at h
    injection h with h1 h2
    intro x hx
    rcases List.mem_cons.mp hx with rfl | hx2
    · exact h1
    · exact ih h2 x hx2

/-- Filtering twice with the same predicate filters once. -/
theorem filter_idem {α : Type} (p : α → Bool) (l : List α) :
    List.filter p (List.filter p l) = List.filter p l := by
  rw [List.filter_filter]
  exact List.filter_congr (fun x _ => Bool.and_self (p x))

/-- The trimmed list has no leading whitespace left to drop. -/
theorem dropWhile_trimChars (l : List Char) :
    List.dropWhile pyWs (trimChars l) = trimChars l := by
  rcases ht : trimChars l with _ | ⟨a, u⟩
  · simp
  · have hpre : trimChars l <+: List.dropWhile pyWs l := List.rdropWhile_prefix _ _
    rw [ht] at hpre
    obtain ⟨s, hs⟩ := hpre
    have hpa : pyWs a = false := by
      have h1 : List.dropWhile pyWs (List.dropWhile pyWs l) = List.dropWhile pyWs l :=
        List.dropWhile_idempotent _ _
      rw [← hs, List.cons_append, List.dropWhile_cons] at h1
      by_cases hb : pyWs a = true
      · rw [if_pos hb] at h1
        have hlen := congrArg List.length h1
        have hle := (List.dropWhile_suffix (l := u ++ s) pyWs).length_le
        simp only [List.length_cons, List.length_append] at hlen hle
        omega
      · simpa using hb
    rw [List.dropWhile_cons, hpa]
    simp

/-- Trimming is idempotent. -/
theorem trimChars_idem (l : List Char) : trimChars (trimChars l) = trimChars l := by
  rw [trimChars, dropWhile_trimChars]
  nth_rewrite 1 [trimChars]
  rw [List.rdropWhile_idempotent]
  rfl

/-- `rdropWhile` of whitespace commutes with case folding. -/
theorem rdropWhile_map_toLower (x : List Char) :
    List.rdropWhile pyWs (x.map Char.toLower) = (List.rdropWhile pyWs x).map Char.toLower := by
  have hpw : (pyWs ∘ Char.toLower) = pyWs := funext pyWs_toLower
  simp only [List.rdropWhile]
  rw [← List.map_reverse, List.dropWhile_map, hpw, ← List.map_reverse]

/-- Trimming commutes with case folding. -/
theorem trimChars_map_toLower (l : List Char) :
    trimChars (l.map Char.toLower) = (trimChars l).map Char.toLower := by
  have hpw : (pyWs ∘ Char.toLower) = pyWs := funext pyWs_toLower
  rw [trimChars, List.dropWhile_map, hpw, rdropWhile_map_toLower]
  rfl

/-- `str.strip()` is idempotent. -/
theorem trimStr_idem (s : String) : trimStr (trimStr s) = trimStr s :=
  congrArg String.mk (trimChars_idem s.data)

/-- `str.lower()` is idempotent. -/
theorem lowerStr_idem (s : String) : lowerStr (lowerStr s) = lowerStr s := by
  show String.mk ((s.data.map Char.toLower).map Char.toLower) = String.mk (s.data.map Char.toLower)
  rw [List.map_map]
  exact congrArg String.mk (List.map_congr_left (fun c _ => toLower_toLower c))

/-- Stripping after lower-casing equals lower-casing after stripping. -/
theorem trimStr_lowerStr (s : String) : trimStr (lowerStr s) = lowerStr (trimStr s) := by
  show String.mk (trimChars (s.data.map Char.toLower))
      = String.mk ((trimChars s.data).map Char.toLower)
  rw [trimChars_map_toLower]

/-- The `.str.strip()` cell action is idempotent. -/
theorem stripVal_stripVal (v : Value) : stripVal (stripVal v) = stripVal v := by
  cases v <;> simp [stripVal, trimStr_idem]

/-- The `.str.lower()` cell action is idempotent. -/
theorem lowerVal_lowerVal (v : Value) : lowerVal (lowerVal v) = lowerVal v := by
  cases v <;> simp [lowerVal, lowerStr_idem]

/-- Stripping a stripped-then-lowered cell changes nothing. -/
theorem stripVal_lowerVal_stripVal (v : Value) :
    stripVal (lowerVal (stripVal v)) = lowerVal (stripVal v) := by
  cases v with
  | str s => simp [stripVal, lowerVal, trimStr_lowerStr, trimStr_idem]
  | na => rfl
  | int i => rfl
  | float q => rfl

/-- Two `.str` passes over the object columns compose pointwise. -/
theorem mapObjCols_comp (f g : Value → Value) (df : DataFrame) :
    mapObjCols f (mapObjCols g df) = mapObjCols (fun v => f (g v)) df := by
  simp only [mapObjCols]
  congr 1
  rw [List.map_map]
  apply List.map_congr_left
  intro r _
  simp only [Function.comp]
  rw [List.map_map]
  apply List.map_congr_left
  intro p _
  simp only [Function.comp]
  by_cases hd : dtypeOf df.cols p.1 = some Dtype.obj <;> simp [hd]

/-- `mapObjCols` only depends on the pointwise cell action. -/
theorem mapObjCols_congr (f g : Value → Value) (h : ∀ v, f v = g v) (df : DataFrame) :
    mapObjCols f df = mapObjCols g df := by
  have hfg : f = g := funext h
  rw [hfg]

/-- Dropping the same columns twice drops them once. -/
theorem dropColumns_idem (ig : List String) (df : DataFrame) :
    dropColumns ig (dropColumns ig df) = dropColumns ig df := by
  simp only [dropColumns]
  congr 1
  · exact filter_idem _ _
  · rw [List.map_map]
    apply List.map_congr_left
    intro r _
    exact filter_idem _ _

/-- A dataframe already free of the ignored columns stays free of them
after any `.str` pass (cell actions never rename columns). -/
theorem dropColumns_mapObjCols_fixed (ig : List String) (g : Value → Value) (Y : DataFrame)
    (h : dropColumns ig Y = Y) :
    dropColumns ig (mapObjCols g Y) = mapObjCols g Y := by
  have hcols : Y.cols.filter (fun p => !ig.contains p.1) = Y.cols := congrArg DataFrame.cols h
  have hrows : Y.rows.map (fun r => r.filter (fun p => !ig.contains p.1)) = Y.rows :=
    congrArg DataFrame.rows h
  have hrfix := map_eq_self_forall _ Y.rows hrows
  simp only [dropColumns, mapObjCols]
  rw [hcols]
  congr 1
  rw [List.map_map]
  apply List.map_congr_left
  intro r hr
  simp only [Function.comp]
  show List.filter (fun p => !ig.contains p.1)
      (r.map (fun p => if dtypeOf Y.cols p.1 = some Dtype.obj then (p.1, g p.2) else p))
    = r.map (fun p => if dtypeOf Y.cols p.1 = some Dtype.obj then (p.1, g p.2) else p)
  rw [List.filter_map]
  have hcong : List.filter ((fun q : String × Value => !ig.contains q.1) ∘
      (fun p => if dtypeOf Y.cols p.1 = some Dtype.obj then (p.1, g p.2) else p)) r
      = List.filter (fun q : String × Value => !ig.contains q.1) r := by
    apply List.filter_congr
    intro x _
    by_cases hx : dtypeOf Y.cols x.1 = some Dtype.obj <;> simp [Function.comp, hx]
  rw [hcong, hrfix r hr]

/-- The conditional drop step is idempotent. -/
theorem dropStep_idem (ig : List String) (df : DataFrame) :
    dropStep ig (dropStep ig df) = dropStep ig df := by
  by_cases hig : ig.isEmpty
  · simp [dropStep, hig]
  · simp only [dropStep, hig, if_false, Bool.false_eq_true]
    exact dropColumns_idem ig df

/-- Whitespace stripping preserves drop-fixedness. -/
theorem dropStep_wsStep_fixed (ig : List String) (iw : Bool) (Y : DataFrame)
    (h : dropStep ig Y = Y) : dropStep ig (wsStep iw Y) = wsStep iw Y := by
  rcases iw with _ | _
  · simpa [wsStep] using h
  · simp only [wsStep, if_true]
    by_cases hig : ig.isEmpty
    · simp [dropStep, hig]
    · rw [dropStep, if_neg (by simp [hig])]
      apply dropColumns_mapObjCols_fixed
      rw [dropStep, if_neg (by simp [hig])] at h
      exact h

/-- Case folding preserves drop-fixedness. -/
theorem dropStep_caseStep_fixed (ig : List String) (ic : Bool) (Y : DataFrame)
    (h : dropStep ig Y = Y) : dropStep ig (caseStep ic Y) = caseStep ic Y := by
  rcases ic with _ | _
  · simpa [caseStep] using h
  · simp only [caseStep, if_true]
    by_cases hig : ig.isEmpty
    · simp [dropStep, hig]
    · rw [dropStep, if_neg (by simp [hig])]
      apply dropColumns_mapObjCols_fixed
      rw [dropStep, if_neg (by simp [hig])] at h
      exact h

/-- One more strip-then-fold pass after a strip-then-fold pass changes
nothing. -/
theorem normalize_steps_idem (iw ic : Bool) (Y : DataFrame) :
    caseStep ic (wsStep iw (caseStep ic (wsStep iw Y))) = caseStep ic (wsStep iw Y) := by
  rcases iw with _ | _ <;> rcases ic with _ | _
  · rfl
  · simp only [wsStep, caseStep, if_true, Bool.false_eq_true, if_false, mapObjCols_comp]
    exact mapObjCols_congr _ _ lowerVal_lowerVal Y
  · simp only [wsStep, caseStep, if_true, Bool.false_eq_true, if_false, mapObjCols_comp]
    exact mapObjCols_congr _ _ stripVal_stripVal Y
  · simp only [wsStep, caseStep, if_true, mapObjCols_comp]
    apply mapObjCols_congr
    intro v
    show lowerVal (stripVal (lowerVal (stripVal v))) = lowerVal (stripVal v)
    rw [stripVal_lowerVal_stripVal v, lowerVal_lowerVal (stripVal v)]

/-- C8: preprocessing is idempotent — for every configuration and every
dataframe, `preprocess(preprocess(D)) = preprocess(D)` (dropping ignored
columns, whitespace trimming and case folding applied twice give the same
result as applied once). -/
theorem preprocess_idempotent (cfg : Config) (df : DataFrame) :
    preprocessDataframe cfg (preprocessDataframe cfg df) = preprocessDataframe cfg df := by
  simp only [preprocessDataframe]
  rw [dropStep_caseStep_fixed _ _ _
    (dropStep_wsStep_fixed _ _ _ (dropStep_idem cfg.ignore_columns df))]
  exact normalize_steps_idem cfg.ignore_whitespace cfg.ignore_case
    (dropStep cfg.ignore_columns df)

/-! ## Claim C9 (confirmed) -/

/-- `drop_duplicates` only keeps rows of the input. -/
theorem mem_of_mem_dedupRows (cs : List String) (l : List Row) :
    ∀ x ∈ dedupRows cs l, x ∈ l := by
  induction l using dedupRows.induct cs with
  | case1 => simp [dedupRows]
  | case2 r rs ih =>
    intro x hx
    rw [dedupRows] at hx
    rcases List.mem_cons.mp hx with rfl | hx2
    · exact List.mem_cons_self _ _
    · exact List.mem_cons_of_mem _ (List.mem_of_mem_filter (ih x hx2))

/-- Every input row has a representative among the kept rows. -/
theorem dedupRows_covers (cs : List String) (l : List Row) :
    ∀ x ∈ l, ∃ y ∈ dedupRows cs l, normRow cs y = normRow cs x := by
  induction l using dedupRows.induct cs with
  | case1 => simp
  | case2 r rs ih =>
    intro x hx
    rw [dedupRows]
    rcases List.mem_cons.mp hx with rfl | hx2
    · exact ⟨x, List.mem_cons_self _ _, rfl⟩
    · by_cases hn : normRow cs x = normRow cs r
      · exact ⟨r, List.mem_cons_self _ _, hn.symm⟩
      · have hxf : x ∈ rs.filter (fun r2 => !(normRow cs r2 = normRow cs r)) :=
          List.mem_filter.mpr ⟨hx2, by simp [hn]⟩
        obtain ⟨y, hy, hyn⟩ := ih x hxf
        exact ⟨y, List.mem_cons_of_mem _ hy, hyn⟩

/-- The kept rows have pairwise distinct normalized tuples. -/
theorem dedupRows_pairwise (cs : List String) (l : List Row) :
    (dedupRows cs l).Pairwise (fun a b => ¬ normRow cs a = normRow cs b) := by
  induction l using dedupRows.induct cs with
  | case1 => rw [dedupRows]; exact List.Pairwise.nil
  | case2 r rs ih =>
    rw [dedupRows]
    refine List.pairwise_cons.mpr ⟨?_, ih⟩
    intro y hy
    have hyf := mem_of_mem_dedupRows _ _ y hy
    have hne := (List.mem_filter.mp hyf).2
    simp only [Bool.not_eq_eq_eq_not, Bool.not_true, decide_eq_false_iff_not] at hne
    exact fun hc => hne hc.symm

/-- Among pairwise-distinct rows, at most one matches a given tuple. -/
theorem filter_norm_count (cs : List String) (t : List Value) (l : List Row)
    (hp : l.Pairwise (fun a b => ¬ normRow cs a = normRow cs b)) :
    (l.filter (fun b => normRow cs b = t)).length
      = if ∃ b ∈ l, normRow cs b = t then 1 else 0 := by
  induction l with
  | nil => simp
  | cons a l ih =>
    obtain ⟨ha, hl⟩ := List.pairwise_cons.mp hp
    by_cases hat : normRow cs a = t
    · rw [List.filter_cons, if_pos (by simpa using hat)]
      have hnil : l.filter (fun b => normRow cs b = t) = [] := by
        apply List.filter_eq_nil_iff.mpr
        intro b hb
        simp only [decide_eq_true_eq]
        intro hbt
        exact ha b hb (hat.trans hbt.symm)
      rw [hnil, if_pos ⟨a, List.mem_cons_self _ _, hat⟩]
      rfl
    · rw [List.filter_cons, if_neg (by simpa using hat), ih hl]
      by_cases he : ∃ b ∈ l, normRow cs b = t
      · rw [if_pos he, if_pos (by
          obtain ⟨b, hb, hbt⟩ := he
          exact ⟨b, List.mem_cons_of_mem _ hb, hbt⟩)]
      · rw [if_neg he, if_neg (by
          rintro ⟨b, hb, hbt⟩
          rcases List.mem_cons.mp hb with rfl | hb2
          · exact hat hbt
          · exact he ⟨b, hb2, hbt⟩)]

/-- A sum of zero-or-one terms is at most the number of terms. -/
theorem sum_le_length (f : Row → ℕ) (l : List Row) (hle : ∀ a ∈ l, f a ≤ 1) :
    (l.map f).sum ≤ l.length := by
  induction l with
  | nil => simp
  | cons a l ih =>
    simp only [List.map_cons, List.sum_cons, List.length_cons]
    have h1 := hle a (List.mem_cons_self _ _)
    have h2 := ih (fun x hx => hle x (List.mem_cons_of_mem _ hx))
    omega

/-- A sum of zero-or-one terms equals the number of terms exactly when
every term is one. -/
theorem sum_eq_length_iff (f : Row → ℕ) (l : List Row) (hle : ∀ a ∈ l, f a ≤ 1) :
    (l.map f).sum = l.length ↔ ∀ a ∈ l, f a = 1 := by
  induction l with
  | nil => simp
  | cons a l ih =>
    simp only [List.map_cons, List.sum_cons, List.length_cons]
    have h1 := hle a (List.mem_cons_self _ _)
    have h2 := sum_le_length f l (fun x hx => hle x (List.mem_cons_of_mem _ hx))
    have ih2 := ih (fun x hx => hle x (List.mem_cons_of_mem _ hx))
    constructor
    · intro h
      have hfa : f a = 1 := by omega
      have hsum : (l.map f).sum = l.length := by omega
      intro x hx
      rcases List.mem_cons.mp hx with rfl | hx2
      · exact hfa
      · exact ih2.mp hsum x hx2
    · intro h
      have hfa := h a (List.mem_cons_self _ _)
      have hsum : (l.map f).sum = l.length :=
        ih2.mpr (fun x hx => h x (List.mem_cons_of_mem _ hx))
      omega

/-- The size of the inner join, counted row by row on the left. -/
theorem length_mergedPairs (keys : List String) (l1 l2 : List Row) :
    (mergedPairs keys l1 l2).length
      = (l1.map (fun a => (l2.filter (fun b => keyMatch keys a b)).length)).sum := by
  rw [mergedPairs, List.length_flatMap]
  congr 1
  apply List.map_congr_left
  intro a _
  simp [Function.comp]

/-- The de-duplicated inner self-join counts every left row exactly when
every left row has a partner on the right. -/
theorem dedup_merge_length_iff (cs : List String) (l1 l2 : List Row) :
    (mergedPairs cs (dedupRows cs l1) (dedupRows cs l2)).length = (dedupRows cs l1).length
      ↔ ∀ r ∈ l1, ∃ r2 ∈ l2, normRow cs r = normRow cs r2 := by
  have hstep : ∀ a : Row, ((dedupRows cs l2).filter (fun b => keyMatch cs a b)).length
      = if ∃ b ∈ dedupRows cs l2, normRow cs b = normRow cs a then 1 else 0 := by
    intro a
    have hcong : (dedupRows cs l2).filter (fun b => keyMatch cs a b)
        = (dedupRows cs l2).filter (fun b => normRow cs b = normRow cs a) := by
      apply List.filter_congr
      intro b _
      rcases hb : keyMatch cs a b with _ | _
      · symm
        simp only [decide_eq_false_iff_not]
        intro hc
        rw [(keyMatch_iff cs a b).mpr hc.symm] at hb
        cases hb
      · symm
        simp only [decide_eq_true_eq]
        exact ((keyMatch_iff cs a b).mp hb).symm
    rw [hcong]
    exact filter_norm_count cs (normRow cs a) _ (dedupRows_pairwise cs l2)
  rw [length_mergedPairs]
  rw [List.map_congr_left (fun a _ => hstep a)]
  have hle : ∀ a ∈ dedupRows cs l1,
      (if ∃ b ∈ dedupRows cs l2, normRow cs b = normRow cs a then 1 else 0) ≤ 1 := by
    intro a _
    split <;> omega
  rw [sum_eq_length_iff _ _ hle]
  constructor
  · intro hall r hr
    obtain ⟨y, hy, hyn⟩ := dedupRows_covers cs l1 r hr
    have h1 := hall y hy
    have hP : ∃ b ∈ dedupRows cs l2, normRow cs b = normRow cs y := by
      by_contra hc
      rw [if_neg hc] at h1
      cases h1
    obtain ⟨b, hb, hbn⟩ := hP
    exact ⟨b, mem_of_mem_dedupRows cs l2 b hb, (hbn.trans hyn).symm⟩
  · intro hall a ha
    obtain ⟨r2, hr2, hrn⟩ := hall a (mem_of_mem_dedupRows cs l1 a ha)
    obtain ⟨y, hy, hyn⟩ := dedupRows_covers cs l2 r2 hr2
    rw [if_pos ⟨y, hy, by rw [hyn, ← hrn]⟩]

/-- Restricting a row to columns it is looked up on does not change the
lookups. -/
theorem getVal_filter_contains (r : Row) (cs : List String) (c : String)
    (h : cs.contains c = true) :
    getVal (r.filter (fun p => cs.contains p.1)) c = getVal r c := by
  induction r with
  | nil => rfl
  | cons p rest ih =>
    by_cases hp : p.1 = c
    · rw [List.filter_cons, if_pos (by rw [hp]; exact h)]
      simp only [getVal]
      rw [List.find?_cons_of_pos _ (by simp [hp]), List.find?_cons_of_pos _ (by simp [hp])]
    · rw [List.filter_cons]
      by_cases hk : cs.contains p.1 = true
      · rw [if_pos hk]
        simp only [getVal] at ih ⊢
        rw [List.find?_cons_of_neg _ (by simp [hp]), List.find?_cons_of_neg _ (by simp [hp])]
        exact ih
      · rw [if_neg hk]
        simp only [getVal] at ih ⊢
        rw [List.find?_cons_of_neg _ (by simp [hp])]
        exact ih

/-- The normalized tuple of a restricted row equals that of the row. -/
theorem normRow_restrict (cs : List String) (r : Row) :
    normRow cs (r.filter (fun p => cs.contains p.1)) = normRow cs r := by
  apply List.map_congr_left
  intro c hc
  have hcc : cs.contains c = true := List.elem_eq_true_of_mem hc
  rw [getValD, getValD, getVal_filter_contains r cs c hcc]

/-- C9: in subset mode with no common columns the strategy reports
`isSubset = false` with reason `"No common columns"`; with at least one
common column, `isSubset = true` exactly when every row-tuple of the first
dataset (restricted to the common columns, up to join-key normalization)
occurs in the second dataset — equivalently, the inner match of the
de-duplicated A rows against the de-duplicated B rows counts every distinct
A row. -/
theorem subset_iff_all_rows_matched (df1 df2 : DataFrame) :
    (commonCols df1 df2 = [] →
      (compareSubset df1 df2).is_subset = false
      ∧ (compareSubset df1 df2).reason = some "No common columns")
    ∧ (commonCols df1 df2 ≠ [] →
      ((compareSubset df1 df2).is_subset = true
        ↔ ∀ r ∈ df1.rows, ∃ r2 ∈ df2.rows,
            normRow (commonCols df1 df2) r = normRow (commonCols df1 df2) r2)) := by
  constructor
  · intro h
    simp [compareSubset, h]
  · intro h
    have hne : (commonCols df1 df2).isEmpty = false := by
      cases hc : commonCols df1 df2
      · exact absurd hc h
      · rfl
    simp only [compareSubset, hne, Bool.false_eq_true, if_false, decide_eq_true_eq]
    rw [dedup_merge_length_iff]
    have hr1 : (restrictCols df1 (commonCols df1 df2)).rows
        = df1.rows.map (fun r => r.filter (fun p => (commonCols df1 df2).contains p.1)) := rfl
    have hr2 : (restrictCols df2 (commonCols df1 df2)).rows
        = df2.rows.map (fun r => r.filter (fun p => (commonCols df1 df2).contains p.1)) := rfl
    rw [hr1, hr2]
    constructor
    · intro hall r hr
      obtain ⟨r2f, hr2f, hn⟩ :=
        hall (r.filter (fun p => (commonCols df1 df2).contains p.1)) (List.mem_map_of_mem _ hr)
      obtain ⟨r2, hr2m, rfl⟩ := List.mem_map.mp hr2f
      refine ⟨r2, hr2m, ?_⟩
      rwa [normRow_restrict, normRow_restrict] at hn
    · intro hall rf hrf
      obtain ⟨r, hr, rfl⟩ := List.mem_map.mp hrf
      obtain ⟨r2, hr2m, hn⟩ := hall r hr
      refine ⟨r2.filter (fun p => (commonCols df1 df2).contains p.1),
        List.mem_map_of_mem _ hr2m, ?_⟩
      rw [normRow_restrict, normRow_restrict]
      exact hn

/-- C9, witness: the theorem applied to concrete frames — the distinct
rows `1, 2` of column `a` all occur in `2, 1, 3`, so `isSubset` is true;
and two empty frames share no columns, so `isSubset` is false. -/
theorem subset_iff_all_rows_matched_witness :
    (compareSubset sA sB).is_subset = true
    ∧ (compareSubset dfE dfE).is_subset = false :=
  ⟨((subset_iff_all_rows_matched sA sB).2 (by decide)).mpr (by decide),
   ((subset_iff_all_rows_matched dfE dfE).1 (by decide)).1⟩

/-! ## Claim C10 (confirmed) -/

/-- A keyed self-comparison of one-row text frames with equal cell text
reports no difference (used to instantiate the C10 statement). -/
theorem compareFull_dfS_self (cfg : Config) (t : String)
    (hkeys : cfg.key_columns = ["k"]) :
    fullDataIdentical ((compareFull cfg (dfS t) (dfS t)).map
        (fun o => (⟨Mode.full, StrategyOutput.full o⟩ : ComparisonResult)))
      = some true := by
  have e1 : commonCols (dfS t) (dfS t) = ["k", "v"] := rfl
  simp only [compareFull, e1, hkeys]
  rw [if_neg (by decide), if_pos (by decide)]
  have hfm : fieldDiffMask cfg.float_tolerance (dtypeOf (dfS t).cols "v")
      (dtypeOf (dfS t).cols "v") (Value.str t) (Value.str t) = false := by
    have hdt : dtypeOf (dfS t).cols "v" = some Dtype.obj := rfl
    rw [hdt, fieldDiffMask, if_neg (by decide)]
    simp [objDiffMask, pyEq, Value.isNa]
  have e0 : List.filter (fun k => (["k", "v"] : List String).contains k) ["k"] = ["k"] := rfl
  have e4 : mergedPairs ["k"] (restrictCols (dfS t) ["k", "v"]).rows
      (restrictCols (dfS t) ["k", "v"]).rows
      = [([("k", Value.int 1), ("v", Value.str t)], [("k", Value.int 1), ("v", Value.str t)])] := rfl
  have e5 : addColDiffs cfg.float_tolerance (dtypeOf (dfS t).cols "v") (dtypeOf (dfS t).cols "v")
      ["k"] "v"
      [([("k", Value.int 1), ("v", Value.str t)], [("k", Value.int 1), ("v", Value.str t)])] []
      = Except.ok [] := by
    have hg : getValD [("k", Value.int 1), ("v", Value.str t)] "v" = Value.str t := rfl
    simp only [addColDiffs, hg, hfm, Bool.false_eq_true, if_false]
  simp only [compareByKey, hkeys]
  rw [if_neg (by decide)]
  simp only [e0, e4, buildRecords, e5]
  rfl

/-- C10: with every configuration option omitted the comparator uses
`floatTolerance = 1e-10`, `ignoreCase = false`, `ignoreWhitespace = true`,
no ignored columns and no key columns.  In particular whitespace trimming
is on by default while case folding is off: under the otherwise-default
configuration (keyed on `k`), two text values whose strip results agree
compare equal, while the text `"A"` is left un-folded by default
preprocessing (only its surrounding whitespace would be stripped). -/
theorem default_config_semantics :
    mkConfig emptyRawConfig
      = { float_tolerance := 1 / 10 ^ 10
          ignore_case := false
          ignore_whitespace := true
          ignore_columns := []
          key_columns := [] }
    ∧ (∀ (sqrtFn : ℚ → ℚ) (s1 s2 : String), trimStr s1 = trimStr s2 →
        fullDataIdentical (compareDataframes cfg10 sqrtFn Mode.full (dfS s1) (dfS s2)) = some true)
    ∧ preprocessDataframe cfg10 (dfS "A") = dfS "A" := by
  refine ⟨rfl, fun sqrtFn s1 s2 h => ?_, by decide⟩
  have hp : ∀ s, preprocessDataframe cfg10 (dfS s) = dfS (trimStr s) := fun s => rfl
  have hcd : compareDataframes cfg10 sqrtFn Mode.full (dfS s1) (dfS s2)
      = (compareFull cfg10 (dfS (trimStr s1)) (dfS (trimStr s2))).map
          (fun o => ⟨Mode.full, StrategyOutput.full o⟩) := by
    have h1 : compareDataframes cfg10 sqrtFn Mode.full (dfS s1) (dfS s2)
        = (compareFull cfg10 (preprocessDataframe cfg10 (dfS s1))
            (preprocessDataframe cfg10 (dfS s2))).map
            (fun o => ⟨Mode.full, StrategyOutput.full o⟩) := rfl
    rw [h1, hp s1, hp s2]
  rw [hcd, h]
  exact compareFull_dfS_self cfg10 (trimStr s2) rfl

/-- C10, witness: the defaults hold and two copies of the text `"x"` that
differ only in surrounding whitespace compare equal under the
otherwise-default keyed configuration. -/
theorem default_config_semantics_witness :
    fullDataIdentical (compareDataframes cfg10 id Mode.full (dfS " x") (dfS "x ")) = some true :=
  default_config_semantics.2.1 id " x" "x " (by decide)

end FidcDataCheck
